import Mathlib

/-!
Shallow embedding of the authentication session manager
(`src/context/AuthContext.tsx` of the fan-club-front repository).

The embedding models:
  * session state (`token`, `user`) kept by `AuthProvider`;
  * the `login` / `signup` candidate-endpoint loops, including their
    error-body parsing, 404 fallthrough, `lastError` threading and the
    final `throw`;
  * initialization from `localStorage` and the two persistence effects.

Modelling conventions (JavaScript semantics made explicit):
  * A fetch either yields a `Response` or throws with a message
    (`err.message`).  A response body either parses as JSON (`BodyRead.json`)
    or `res.json()` throws, in which case `res.text()` may return a string or
    throw (`BodyRead.noJson`).
  * JSON bodies are modelled by the fields the code reads.  A field of type
    `Option String` is `some v` when the field is present with value `v`
    (a present JS `null`/`undefined` behaves like absence under `??`, so it
    is modelled as `none`).  Truthiness tests of the code (`if (j.detail)`,
    `data.username ? _ : _`, `if (token)`) are modelled explicitly via the
    empty string, the only falsy nonempty-able string value.
  * `non_field_errors` holds the `JSON.stringify` rendering of that field
    when the field is present (its value is an array in practice, which is
    always truthy); `rendered` holds `JSON.stringify` of the whole body.
  * User records are JSON objects; `UserRec.usernameOnly s` is the object
    with a single `username` field, `UserRec.payload s` an arbitrary user
    object identified by its JSON rendering.  JSON (de)serialization of
    user records is passed in abstractly as `encode` / `decode`.
-/

namespace FanClub

/-- A user record: either the minimal synthesized object with one
`username` field, or an arbitrary backend-supplied user object. -/
inductive UserRec where
  | usernameOnly (username : String)
  | payload (rendered : String)
deriving DecidableEq

/-- The session state held by `AuthProvider`: `token` and `user`
React states (`null` modelled as `none`). -/
structure SessionState where
  token : Option String
  user : Option UserRec
deriving DecidableEq

/-- The credentials argument of `login` / `signup`. -/
structure Creds where
  username : String
  password : String
deriving DecidableEq

/-- The JSON fields the code reads from a parsed response body.
`rendered` is `JSON.stringify` of the whole body; `non_field_errors` the
rendering of that field when present. -/
structure Body where
  access : Option String := none
  token : Option String := none
  auth_token : Option String := none
  user : Option UserRec := none
  username : Option String := none
  detail : Option String := none
  non_field_errors : Option String := none
  rendered : String := ""
deriving DecidableEq

/-- Outcome of `res.text()`: a string, or a throw with a message. -/
inductive TextRead where
  | ok (t : String)
  | thrown (msg : String)
deriving DecidableEq

/-- Outcome of reading a response body: `res.json()` succeeds with a parsed
body, or it throws (with message `parseMsg`) and `res.text()` then behaves
as `text`. -/
inductive BodyRead where
  | json (j : Body)
  | noJson (parseMsg : String) (text : TextRead)
deriving DecidableEq

/-- An HTTP response: status code and body. -/
structure Response where
  status : Nat
  body : BodyRead
deriving DecidableEq

/-- `res.ok` of the fetch API: status in the 2xx range. -/
def resOk (r : Response) : Bool :=
  200 ≤ r.status && r.status < 300

/-- Outcome of `fetch`: a response, or a network-level throw with a
message (`err.message`). -/
inductive FetchOutcome where
  | ok (r : Response)
  | thrown (msg : String)
deriving DecidableEq

/-- JS truthiness of an optional string value: present and nonempty. -/
def truthy (o : Option String) : Option String :=
  match o with
  | some s => if s = "" then none else some s
  | none => none

/-- Result of processing one candidate endpoint: commit-and-return
(`success`), or continue with the updated `lastError` (`fail`). -/
inductive Attempt where
  | success (t : Option String) (u : UserRec)
  | fail (lastErr : Option String)
deriving DecidableEq

/-- One iteration of `login`'s candidate loop, given the current
`lastError`, the endpoint and the fetch outcome.  Mirrors the body of the
`for` loop in `login` (src/context/AuthContext.tsx lines 62-106). -/
def loginStep (creds : Creds) (lastError : Option String) (endpoint : String)
    (out : FetchOutcome) : Attempt :=
  match out with
  | .thrown m => .fail (some m)
  | .ok r =>
    if resOk r then
      match r.body with
      | .json j =>
        let t : Option String :=
          match j.access with
          | some a => some a
          | none =>
            match j.token with
            | some tk => some tk
            | none => j.auth_token
        let u : Option UserRec :=
          match j.user with
          | some ur => some ur
          | none =>
            match truthy j.username with
            | some s => some (.usernameOnly s)
            | none => none
        .success t (u.getD (.usernameOnly creds.username))
      | .noJson parseMsg _ => .fail (some parseMsg)
    else if r.status == 404 then
      .fail (some ("Not found: " ++ endpoint))
    else
      match r.body with
      | .json j =>
        match truthy j.detail with
        | some d => .fail (some d)
        | none =>
          match j.non_field_errors with
          | some nfe => .fail (some nfe)
          | none => .fail (some j.rendered)
      | .noJson _ txt =>
        match txt with
        | .ok t => if t = "" then .fail lastError else .fail (some t)
        | .thrown _ => .fail lastError

set_option linter.unusedVariables false in
/-- One iteration of `signup`'s candidate loop (src/context/AuthContext.tsx
lines 114-145).  Differs from `loginStep` in the error-body branch: no
`non_field_errors` case, and the raw-text fallback is
`t || "HTTP <status>"`, with a text-read throw reaching the outer catch. -/
def signupStep (creds : Creds) (lastError : Option String) (endpoint : String)
    (out : FetchOutcome) : Attempt :=
  match out with
  | .thrown m => .fail (some m)
  | .ok r =>
    if resOk r then
      match r.body with
      | .json j =>
        let t : Option String :=
          match j.access with
          | some a => some a
          | none =>
            match j.token with
            | some tk => some tk
            | none => j.auth_token
        let u : Option UserRec :=
          match j.user with
          | some ur => some ur
          | none =>
            match truthy j.username with
            | some s => some (.usernameOnly s)
            | none => none
        .success t (u.getD (.usernameOnly creds.username))
      | .noJson parseMsg _ => .fail (some parseMsg)
    else if r.status == 404 then
      .fail (some ("Not found: " ++ endpoint))
    else
      match r.body with
      | .json j =>
        match truthy j.detail with
        | some d => .fail (some d)
        | none => .fail (some j.rendered)
      | .noJson _ txt =>
        match txt with
        | .ok t => .fail (some (if t = "" then "HTTP " ++ toString r.status else t))
        | .thrown m => .fail (some m)

/-- Result of a whole `login`/`signup` call: returned normally, or threw
an `Error` with the given message. -/
inductive OpResult where
  | returned
  | threw (msg : String)
deriving DecidableEq

/-- Observable outcome of running `login`/`signup`: the result, the final
session state, and the ordered list of endpoints actually fetched. -/
structure RunOut where
  result : OpResult
  state : SessionState
  trace : List String
deriving DecidableEq

/-- The candidate loop shared by `login` and `signup`: iterate the endpoint
list, threading `lastError`; commit session state and return on success;
throw `lastError ?? fallback` when the list is exhausted. -/
def runAuth (step : Option String → String → FetchOutcome → Attempt)
    (backend : String → FetchOutcome) (fallback : String) :
    List String → Option String → SessionState → RunOut
  | [], lastError, st => ⟨.threw (lastError.getD fallback), st, []⟩
  | e :: rest, lastError, st =>
    match step lastError e (backend e) with
    | .success t u => ⟨.returned, ⟨t, some u⟩, [e]⟩
    | .fail le =>
      let out := runAuth step backend fallback rest le st
      ⟨out.result, out.state, e :: out.trace⟩

/-- The three login candidate endpoints, in order. -/
def loginEndpoints : List String :=
  ["/api/auth/token/", "/api/auth/login/", "/api/auth/token/obtain/"]

/-- The two signup candidate endpoints, in order. -/
def signupEndpoints : List String :=
  ["/api/auth/signup/", "/api/auth/register/"]

/-- The `login` operation, as a function of the backend's behaviour and the
session state before the call. -/
def login (creds : Creds) (backend : String → FetchOutcome)
    (st : SessionState) : RunOut :=
  runAuth (loginStep creds) backend "Login failed" loginEndpoints none st

/-- The `signup` operation. -/
def signup (creds : Creds) (backend : String → FetchOutcome)
    (st : SessionState) : RunOut :=
  runAuth (signupStep creds) backend "Signup failed" signupEndpoints none st

/-- The `logout` operation: clears both fields. -/
def logout (_st : SessionState) : SessionState := ⟨none, none⟩

/-- Modelled from the spec for comparison with the code's `signup` (claim
about signup reusing login's parsing rules): a signup per-attempt handler
that applies exactly `login`'s response-parsing, error-precedence and
success-extraction rules. -/
def signupStepSpec (creds : Creds) (lastError : Option String)
    (endpoint : String) (out : FetchOutcome) : Attempt :=
  loginStep creds lastError endpoint out

/-- The signup operation as the spec describes it: `login`'s rules over the
signup endpoint list with the signup fallback message. -/
def signupSpec (creds : Creds) (backend : String → FetchOutcome)
    (st : SessionState) : RunOut :=
  runAuth (signupStepSpec creds) backend "Signup failed" signupEndpoints none st

/-- One storage slot as seen by `localStorage.getItem`: a value
(`none` = key missing), or the storage access threw. -/
inductive SlotRead where
  | ok (v : Option String)
  | thrown
deriving DecidableEq

/-- The two storage slots read and written by the provider
(`auth_token`, `auth_user`). -/
structure Storage where
  tokenSlot : SlotRead
  userSlot : SlotRead
deriving DecidableEq

/-- Storage with neither key present. -/
def emptyStorage : Storage := ⟨.ok none, .ok none⟩

/-- The token initializer (lines 21-27): `getItem` under try/catch. -/
def initToken (st : Storage) : Option String :=
  match st.tokenSlot with
  | .ok v => v
  | .thrown => none

/-- The user initializer (lines 28-35): `raw ? JSON.parse(raw) : null`
under try/catch; `decode raw = none` covers both a parse throw and a parse
result that is not a usable record. -/
def initUser (decode : String → Option UserRec) (st : Storage) :
    Option UserRec :=
  match st.userSlot with
  | .thrown => none
  | .ok none => none
  | .ok (some raw) => if raw = "" then none else decode raw

/-- The session state produced by initialization from storage. -/
def initState (decode : String → Option UserRec) (st : Storage) :
    SessionState :=
  ⟨initToken st, initUser decode st⟩

/-- The two persistence effects (lines 37-49): `if (token) setItem else
removeItem`, and symmetrically for the serialized user.  Note the JS
truthiness test drops an empty-string token. -/
def persist (encode : UserRec → String) (s : SessionState) : Storage :=
  ⟨.ok (match s.token with
        | some t => if t = "" then none else some t
        | none => none),
   .ok (match s.user with
        | some u => some (encode u)
        | none => none)⟩

/-- The `lastError` value after processing a list of candidates (the "last
recorded error message" of the spec). -/
def finalErr (step : Option String → String → FetchOutcome → Attempt)
    (backend : String → FetchOutcome) :
    List String → Option String → Option String
  | [], le => le
  | e :: rest, le =>
    match step le e (backend e) with
    | .success _ _ => le
    | .fail le2 => finalErr step backend rest le2

/-! ### Concrete inputs used by witnesses and counterexamples -/

/-- A fixed credentials value. -/
def creds0 : Creds := ⟨"alice", "pw"⟩

/-- The anonymous session. -/
def anon : SessionState := ⟨none, none⟩

/-- Backend answering every endpoint with `200` and an empty JSON object. -/
def bEmptyOk : String → FetchOutcome := fun _ => .ok ⟨200, .json {}⟩

/-- Backend answering every endpoint with `404`. -/
def bAll404 : String → FetchOutcome := fun _ => .ok ⟨404, .json {}⟩

/-- Backend whose first login candidate answers `200` with a body that is
not valid JSON (and a readable empty text body); every other endpoint 404s. -/
def bOkNoJson : String → FetchOutcome := fun e =>
  if e = "/api/auth/token/" then
    .ok ⟨200, .noJson "Unexpected end of JSON input" (.ok "")⟩
  else .ok ⟨404, .json {}⟩

/-- Backend where the first signup candidate 404s and the second answers
`400` with a JSON body carrying `non_field_errors` (rendered "NFE") and
whole-body rendering "ALL", no `detail`. -/
def bNfe : String → FetchOutcome := fun e =>
  if e = "/api/auth/signup/" then .ok ⟨404, .json {}⟩
  else .ok ⟨400, .json { non_field_errors := some "NFE", rendered := "ALL" }⟩

/-- Backend where the last login candidate answers `500` with an
unparseable JSON body and an empty text body, and all others 404. -/
def bLate500 : String → FetchOutcome := fun e =>
  if e = "/api/auth/token/obtain/" then
    .ok ⟨500, .noJson "parse error" (.ok "")⟩
  else .ok ⟨404, .json {}⟩

/-- Backend answering every endpoint `200` with body containing an
empty-string `access` token. -/
def bEmptyTok : String → FetchOutcome := fun _ =>
  .ok ⟨200, .json { access := some "" }⟩

/-- Backend answering every endpoint `200` with `access = "abc"`. -/
def bAbc : String → FetchOutcome := fun _ =>
  .ok ⟨200, .json { access := some "abc" }⟩

/-- A concrete injective user-record serializer (stands in for
`JSON.stringify` on user records). -/
def myEnc : UserRec → String
  | .usernameOnly s => String.mk ('u' :: s.data)
  | .payload s => String.mk ('p' :: s.data)

/-- The matching deserializer (stands in for `JSON.parse`). -/
def myDec (s : String) : Option UserRec :=
  match s.data with
  | 'u' :: cs => some (.usernameOnly (String.mk cs))
  | 'p' :: cs => some (.payload (String.mk cs))
  | _ => none

theorem myDec_myEnc (u : UserRec) : myDec (myEnc u) = some u := by
  cases u <;> rfl

theorem myEnc_ne_empty (u : UserRec) : myEnc u ≠ "" := by
  cases u <;> intro h <;>
    exact List.noConfusion (congrArg String.data h)

/-! ### Generic lemmas about the candidate loop -/

/-- If the loop throws, the session state is exactly the state before the
call: no failed attempt mutates it. -/
theorem runAuth_threw_state
    (step : Option String → String → FetchOutcome → Attempt)
    (backend : String → FetchOutcome) (fb : String) :
    ∀ (l : List String) (le : Option String) (st : SessionState) (m : String),
      (runAuth step backend fb l le st).result = .threw m →
      (runAuth step backend fb l le st).state = st := by
  intro l
  induction l with
  | nil => intro le st m _; rfl
  | cons e rest ih =>
    intro le st m h
    cases hs : step le e (backend e) with
    | success t u => simp [runAuth, hs] at h
    | fail le2 =>
      simp only [runAuth, hs] at h ⊢
      exact ih le2 st m h

/-- If the loop returns, the committed user record is present (the success
branch always calls `setUser` with a non-null record). -/
theorem runAuth_returned_user_isSome
    (step : Option String → String → FetchOutcome → Attempt)
    (backend : String → FetchOutcome) (fb : String) :
    ∀ (l : List String) (le : Option String) (st : SessionState),
      (runAuth step backend fb l le st).result = .returned →
      (runAuth step backend fb l le st).state.user.isSome := by
  intro l
  induction l with
  | nil => intro le st h; simp [runAuth] at h
  | cons e rest ih =>
    intro le st h
    cases hs : step le e (backend e) with
    | success t u => simp [runAuth, hs]
    | fail le2 =>
      simp only [runAuth, hs] at h ⊢
      exact ih le2 st h

/-- If every remaining candidate fails without updating `lastError`, the
loop throws the current `lastError` (or the fallback) and contacts every
candidate. -/
theorem runAuth_nonrecording
    (step : Option String → String → FetchOutcome → Attempt)
    (backend : String → FetchOutcome) (fb : String) :
    ∀ (l : List String) (le : Option String) (st : SessionState),
      (∀ e le2, e ∈ l → step le2 e (backend e) = .fail le2) →
      (runAuth step backend fb l le st).result = .threw (le.getD fb)
      ∧ (runAuth step backend fb l le st).trace = l := by
  intro l
  induction l with
  | nil => intro le st _; exact ⟨rfl, rfl⟩
  | cons e rest ih =>
    intro le st h
    have he : step le e (backend e) = .fail le :=
      h e le (List.mem_cons_self e rest)
    have hrest : ∀ e2 le2, e2 ∈ rest → step le2 e2 (backend e2) = .fail le2 :=
      fun e2 le2 hm => h e2 le2 (List.mem_cons_of_mem e hm)
    have := ih le st hrest
    simp only [runAuth, he]
    exact ⟨this.1, by rw [this.2]⟩

/-- The message of a thrown loop is the final `lastError` (the last
recorded error message), with the fallback when none was recorded. -/
theorem runAuth_err_msg
    (step : Option String → String → FetchOutcome → Attempt)
    (backend : String → FetchOutcome) (fb : String) :
    ∀ (l : List String) (le : Option String) (st : SessionState) (m : String),
      (runAuth step backend fb l le st).result = .threw m →
      m = (finalErr step backend l le).getD fb := by
  intro l
  induction l with
  | nil =>
    intro le st m h
    simp only [runAuth, OpResult.threw.injEq] at h
    simp [finalErr, h.symm]
  | cons e rest ih =>
    intro le st m h
    cases hs : step le e (backend e) with
    | success t u => simp [runAuth, hs] at h
    | fail le2 =>
      simp only [runAuth, hs] at h
      simp only [finalErr, hs]
      exact ih le2 st m h

/-- A 404 response drives `loginStep` to record the "Not found" message
and continue. -/
theorem loginStep_404 (creds : Creds) (le : Option String) (e : String)
    (r : Response) (h : r.status = 404) :
    loginStep creds le e (.ok r) = .fail (some ("Not found: " ++ e)) := by
  have hok : resOk r = false := by simp [resOk, h]
  simp [loginStep, hok, h]

/-- A 404 response drives `signupStep` to record the "Not found" message
and continue. -/
theorem signupStep_404 (creds : Creds) (le : Option String) (e : String)
    (r : Response) (h : r.status = 404) :
    signupStep creds le e (.ok r) = .fail (some ("Not found: " ++ e)) := by
  have hok : resOk r = false := by simp [resOk, h]
  simp [signupStep, hok, h]

/-- Every branch of `signupStep` either commits or overwrites `lastError`
with a freshly recorded message, so over a nonempty candidate list the
signup loop's result does not depend on the incoming `lastError`. -/
theorem runAuth_signup_ignores_lastError (creds : Creds)
    (backend : String → FetchOutcome) (fb : String) (e : String)
    (rest : List String) (le le' : Option String) (st : SessionState) :
    (runAuth (signupStep creds) backend fb (e :: rest) le st).result
      = (runAuth (signupStep creds) backend fb (e :: rest) le' st).result := by
  simp only [runAuth]
  have h : signupStep creds le e (backend e) = signupStep creds le' e (backend e) :=
    rfl
  rw [h]

/-! ### Claim C1 -/

/-- C1 counterexample: a successful `login` against a backend whose first
candidate returns `200` with an empty JSON body commits a session with the
user present but the token absent — a partial (user-without-token) state,
refuting "fully authenticated or fully anonymous" after success. -/
theorem login_success_without_token :
    (login creds0 bEmptyOk anon).result = .returned
    ∧ (login creds0 bEmptyOk anon).state.token = none
    ∧ (login creds0 bEmptyOk anon).state.user ≠ none := by
  decide

/-- C1 (amended): after every successful `login` or `signup` the session
user record is present (token-without-user is normalized away by the
synthesized user record); the token, however, may be absent while the user
is present when the success response carried no token field. -/
theorem auth_success_user_always_present
    (creds : Creds) (backend : String → FetchOutcome) (st : SessionState) :
    ((login creds backend st).result = .returned →
      (login creds backend st).state.user.isSome)
    ∧ ((signup creds backend st).result = .returned →
      (signup creds backend st).state.user.isSome) :=
  ⟨runAuth_returned_user_isSome (loginStep creds) backend "Login failed"
      loginEndpoints none st,
   runAuth_returned_user_isSome (signupStep creds) backend "Signup failed"
      signupEndpoints none st⟩

/-- C1 witness: the amended claim at a concrete backend. -/
theorem auth_success_user_always_present_witness :
    (login creds0 bEmptyOk anon).state.user.isSome
    ∧ (signup creds0 bEmptyOk anon).state.user.isSome :=
  ⟨(auth_success_user_always_present creds0 bEmptyOk anon).1 (by decide),
   (auth_success_user_always_present creds0 bEmptyOk anon).2 (by decide)⟩

/-! ### Claim C2 -/

/-- C2 counterexample: the first candidate returns a successful (2xx)
response, yet because its body is not valid JSON, `login` proceeds to fetch
the remaining two candidates — refuting "never contacts the remaining
candidates whenever the first returns success". -/
theorem login_first_ok_unparseable_contacts_rest :
    bOkNoJson "/api/auth/token/"
      = .ok ⟨200, .noJson "Unexpected end of JSON input" (.ok "")⟩
    ∧ resOk ⟨200, .noJson "Unexpected end of JSON input" (.ok "")⟩ = true
    ∧ (login creds0 bOkNoJson anon).trace = loginEndpoints := by
  decide

/-- C2 (amended): if the first candidate returns a successful response
whose body parses as JSON, `login` returns having contacted only that
first endpoint, and commits into session state the token and user
extracted from that response (token by the `access`/`token`/`auth_token`
chain; user from the `user` field, else synthesized from a truthy
`username` field, else synthesized from the submitted username). -/
theorem login_first_ok_json_single_request
    (creds : Creds) (backend : String → FetchOutcome) (st : SessionState)
    (r : Response) (j : Body)
    (h1 : backend "/api/auth/token/" = .ok r)
    (h2 : resOk r = true) (h3 : r.body = .json j) :
    (login creds backend st).result = .returned
    ∧ (login creds backend st).trace = ["/api/auth/token/"]
    ∧ (login creds backend st).state.token
        = (match j.access with
           | some a => some a
           | none =>
             match j.token with
             | some tk => some tk
             | none => j.auth_token)
    ∧ (login creds backend st).state.user
        = some ((match j.user with
                 | some ur => some ur
                 | none =>
                   match truthy j.username with
                   | some s => some (UserRec.usernameOnly s)
                   | none => none).getD (.usernameOnly creds.username)) := by
  cases hstep : loginStep creds none "/api/auth/token/" (backend "/api/auth/token/") with
  | success t u =>
    have hval := hstep
    rw [h1] at hval
    simp [loginStep, h2, h3] at hval
    have hrun : (login creds backend st).result = .returned
        ∧ (login creds backend st).trace = ["/api/auth/token/"]
        ∧ (login creds backend st).state.token = t
        ∧ (login creds backend st).state.user = some u := by
      simp [login, loginEndpoints, runAuth, hstep]
    refine ⟨hrun.1, hrun.2.1, ?_, ?_⟩
    · rw [hrun.2.2.1]
      exact hval.1.symm
    · rw [hrun.2.2.2, ← hval.2]
  | fail le =>
    rw [h1] at hstep
    simp [loginStep, h2, h3] at hstep

/-- C2 witness: the amended claim at a concrete backend whose first
candidate returns `200` with `access = "abc"` and no user fields. -/
theorem login_first_ok_json_single_request_witness :
    (login creds0 bAbc anon).result = .returned
    ∧ (login creds0 bAbc anon).trace = ["/api/auth/token/"]
    ∧ (login creds0 bAbc anon).state.token = some "abc"
    ∧ (login creds0 bAbc anon).state.user
        = some (.usernameOnly "alice") := by
  have h := login_first_ok_json_single_request creds0 bAbc anon
    ⟨200, .json { access := some "abc" }⟩ { access := some "abc" }
    rfl rfl rfl
  exact ⟨h.1, h.2.1, h.2.2.1, h.2.2.2⟩

/-! ### Claim C10 -/

/-- C10: `login` and `signup` are atomic with respect to session state on
failure: whenever the operation throws, the session token and user record
are exactly what they were before the call. -/
theorem auth_failure_preserves_state
    (creds : Creds) (backend : String → FetchOutcome) (st : SessionState)
    (m : String) :
    ((login creds backend st).result = .threw m →
      (login creds backend st).state = st)
    ∧ ((signup creds backend st).result = .threw m →
      (signup creds backend st).state = st) :=
  ⟨runAuth_threw_state (loginStep creds) backend "Login failed"
      loginEndpoints none st m,
   runAuth_threw_state (signupStep creds) backend "Signup failed"
      signupEndpoints none st m⟩

/-- C10 witness: a backend whose every endpoint 404s leaves the session
untouched by both operations. -/
theorem auth_failure_preserves_state_witness :
    (login creds0 bAll404 anon).state = anon
    ∧ (signup creds0 bAll404 anon).state = anon :=
  ⟨(auth_failure_preserves_state creds0 bAll404 anon
      "Not found: /api/auth/token/obtain/").1 (by decide),
   (auth_failure_preserves_state creds0 bAll404 anon
      "Not found: /api/auth/register/").2 (by decide)⟩

/-! ### Claim C3 -/

/-- C3 counterexample: on a non-404 error body carrying `non_field_errors`
(no `detail`), `signup` surfaces the rendering of the whole body ("ALL"),
while login's precedence rules (the spec-modelled `signupSpec`) would
surface the `non_field_errors` rendering ("NFE") — `signup` does not apply
the same error-message precedence as `login`. -/
theorem signup_error_precedence_differs_from_login :
    (signup creds0 bNfe anon).result = .threw "ALL"
    ∧ (signupSpec creds0 bNfe anon).result = .threw "NFE" := by
  decide

/-- C3 (amended): `signup` applies the same success-extraction, 404 and
network-error handling as `login`, and the same `detail`-first rule, but
its error-body parsing omits the `non_field_errors` precedence step
(falling directly to the whole-body rendering) and its raw-text fallback
substitutes "HTTP <status>" for an empty text body. -/
theorem signup_matches_login_outside_error_body
    (creds : Creds) (le : Option String) (e : String) :
    (∀ m, signupStep creds le e (.thrown m) = loginStep creds le e (.thrown m))
    ∧ (∀ r, resOk r = true →
        signupStep creds le e (.ok r) = loginStep creds le e (.ok r))
    ∧ (∀ r, r.status = 404 →
        signupStep creds le e (.ok r) = loginStep creds le e (.ok r))
    ∧ (∀ r j d, r.body = .json j → resOk r = false → r.status ≠ 404 →
        truthy j.detail = some d →
        signupStep creds le e (.ok r) = .fail (some d)
        ∧ loginStep creds le e (.ok r) = .fail (some d)) := by
  refine ⟨fun m => rfl, fun r h => ?_, fun r h => ?_, fun r j d hb hok h404 hd => ?_⟩
  · cases hb : r.body <;> simp [signupStep, loginStep, h, hb]
  · rw [signupStep_404 creds le e r h, loginStep_404 creds le e r h]
  · have h404b : (r.status == 404) = false := by
      simp [h404]
    constructor <;> simp [signupStep, loginStep, hok, h404b, hb, hd]

/-- C3 witness: the agreement cases of the amended claim at concrete
inputs. -/
theorem signup_matches_login_outside_error_body_witness :
    (signupStep creds0 none "/e" (.thrown "boom")
      = loginStep creds0 none "/e" (.thrown "boom"))
    ∧ (signupStep creds0 none "/e" (.ok ⟨200, .json {}⟩)
      = loginStep creds0 none "/e" (.ok ⟨200, .json {}⟩))
    ∧ (signupStep creds0 none "/e" (.ok ⟨404, .json {}⟩)
      = loginStep creds0 none "/e" (.ok ⟨404, .json {}⟩))
    ∧ (signupStep creds0 none "/e" (.ok ⟨400, .json { detail := some "D" }⟩)
      = .fail (some "D")) :=
  ⟨(signup_matches_login_outside_error_body creds0 none "/e").1 "boom",
   (signup_matches_login_outside_error_body creds0 none "/e").2.1 _ (by decide),
   (signup_matches_login_outside_error_body creds0 none "/e").2.2.1 _ rfl,
   ((signup_matches_login_outside_error_body creds0 none "/e").2.2.2
      ⟨400, .json { detail := some "D" }⟩ { detail := some "D" } "D"
      rfl (by decide) (by decide) (by decide)).1⟩

/-! ### Claim C4 -/

/-- C4 counterexample: first two candidates 404, last candidate fails with
`500` and an empty text body (which records nothing); `login` surfaces the
404 message of the second — non-last — candidate as the final error,
refuting "not recorded as the final error unless it is the last
candidate". -/
theorem login_second_404_surfaced_as_final :
    (login creds0 bLate500 anon).result = .threw "Not found: /api/auth/login/"
    ∧ bLate500 "/api/auth/login/" = .ok ⟨404, .json {}⟩
    ∧ "/api/auth/login/" ≠ "/api/auth/token/obtain/"
    ∧ loginEndpoints.getLast? = some "/api/auth/token/obtain/" := by
  decide

/-- C4 (amended): on a 404 both `login` and `signup` proceed to the next
candidate.  In `signup` every later failed candidate overwrites the
recorded message with its own, so the outcome after a non-last 404 is
independent of the recorded 404 message — a non-last 404 is never the
surfaced error.  In `login`, however, a later non-404 failure with an
empty or unreadable text body records nothing, so the recorded 404 message
is surfaced as the final error whenever every subsequent candidate fails
without recording a message — not only when the 404 came from the last
candidate. -/
theorem auth_404_proceeds_and_may_surface
    (creds : Creds) (backend : String → FetchOutcome) (fb : String)
    (e : String) (rest : List String) (le : Option String)
    (st : SessionState) (r : Response)
    (h1 : backend e = .ok r) (h2 : r.status = 404) :
    (runAuth (loginStep creds) backend fb (e :: rest) le st).trace
      = e :: (runAuth (loginStep creds) backend fb rest
          (some ("Not found: " ++ e)) st).trace
    ∧ (runAuth (signupStep creds) backend fb (e :: rest) le st).trace
      = e :: (runAuth (signupStep creds) backend fb rest
          (some ("Not found: " ++ e)) st).trace
    ∧ ((∀ e2 le2, e2 ∈ rest → loginStep creds le2 e2 (backend e2) = .fail le2) →
      (runAuth (loginStep creds) backend fb (e :: rest) le st).result
        = .threw ("Not found: " ++ e))
    ∧ (rest ≠ [] → ∀ le2 : Option String,
      (runAuth (signupStep creds) backend fb (e :: rest) le st).result
        = (runAuth (signupStep creds) backend fb rest le2 st).result) := by
  have hsL : loginStep creds le e (backend e)
      = .fail (some ("Not found: " ++ e)) := by
    rw [h1]; exact loginStep_404 creds le e r h2
  have hsS : signupStep creds le e (backend e)
      = .fail (some ("Not found: " ++ e)) := by
    rw [h1]; exact signupStep_404 creds le e r h2
  refine ⟨?_, ?_, ?_, ?_⟩
  · simp only [runAuth, hsL]
  · simp only [runAuth, hsS]
  · intro hrest
    have h := runAuth_nonrecording (loginStep creds) backend fb rest
      (some ("Not found: " ++ e)) st hrest
    simp only [runAuth, hsL]
    simpa using h.1
  · intro hne le2
    simp only [runAuth, hsS]
    cases rest with
    | nil => exact absurd rfl hne
    | cons e2 rest2 =>
      exact runAuth_signup_ignores_lastError creds backend fb e2 rest2
        (some ("Not found: " ++ e)) le2 st

/-- C4 witness: the amended claim at the concrete `bLate500` backend, with
the 404 at the (non-last) head of the remaining candidate list. -/
theorem auth_404_proceeds_and_may_surface_witness :
    (runAuth (loginStep creds0) bLate500 "Login failed"
        ["/api/auth/login/", "/api/auth/token/obtain/"]
        (some "Not found: /api/auth/token/") anon).trace
      = "/api/auth/login/" :: (runAuth (loginStep creds0) bLate500 "Login failed"
          ["/api/auth/token/obtain/"]
          (some ("Not found: " ++ "/api/auth/login/")) anon).trace
    ∧ (runAuth (signupStep creds0) bLate500 "Login failed"
        ["/api/auth/login/", "/api/auth/token/obtain/"]
        (some "Not found: /api/auth/token/") anon).trace
      = "/api/auth/login/" :: (runAuth (signupStep creds0) bLate500 "Login failed"
          ["/api/auth/token/obtain/"]
          (some ("Not found: " ++ "/api/auth/login/")) anon).trace
    ∧ (runAuth (loginStep creds0) bLate500 "Login failed"
        ["/api/auth/login/", "/api/auth/token/obtain/"]
        (some "Not found: /api/auth/token/") anon).result
      = .threw ("Not found: " ++ "/api/auth/login/")
    ∧ (runAuth (signupStep creds0) bLate500 "Login failed"
        ["/api/auth/login/", "/api/auth/token/obtain/"]
        (some "Not found: /api/auth/token/") anon).result
      = (runAuth (signupStep creds0) bLate500 "Login failed"
          ["/api/auth/token/obtain/"] none anon).result := by
  have h := auth_404_proceeds_and_may_surface creds0 bLate500 "Login failed"
    "/api/auth/login/" ["/api/auth/token/obtain/"]
    (some "Not found: /api/auth/token/") anon ⟨404, .json {}⟩ rfl rfl
  refine ⟨h.1, h.2.1, h.2.2.1 ?_, h.2.2.2 (by simp) none⟩
  intro e2 le2 hm
  simp only [List.mem_singleton] at hm
  subst hm
  rfl

/-! ### Claim C5 -/

/-- C5: if all three login candidates return 404, `login` throws an error
whose message names the last attempted path; and in general, on exhausting
all candidates `login` throws the last recorded error message, with the
generic "Login failed" when no candidate ever recorded one. -/
theorem login_exhaustion_error_message
    (creds : Creds) (backend : String → FetchOutcome) (st : SessionState) :
    ((∀ e ∈ loginEndpoints, ∃ r, backend e = .ok r ∧ r.status = 404) →
      (login creds backend st).result
        = .threw "Not found: /api/auth/token/obtain/")
    ∧ (∀ m, (login creds backend st).result = .threw m →
      m = (finalErr (loginStep creds) backend loginEndpoints none).getD
          "Login failed") := by
  constructor
  · intro h
    obtain ⟨r1, hb1, hs1⟩ := h "/api/auth/token/" (by simp [loginEndpoints])
    obtain ⟨r2, hb2, hs2⟩ := h "/api/auth/login/" (by simp [loginEndpoints])
    obtain ⟨r3, hb3, hs3⟩ := h "/api/auth/token/obtain/" (by simp [loginEndpoints])
    have k1 : loginStep creds none "/api/auth/token/"
        (backend "/api/auth/token/")
        = .fail (some ("Not found: " ++ "/api/auth/token/")) := by
      rw [hb1]; exact loginStep_404 creds none _ r1 hs1
    have k2 : loginStep creds (some ("Not found: " ++ "/api/auth/token/"))
        "/api/auth/login/" (backend "/api/auth/login/")
        = .fail (some ("Not found: " ++ "/api/auth/login/")) := by
      rw [hb2]; exact loginStep_404 creds _ _ r2 hs2
    have k3 : loginStep creds (some ("Not found: " ++ "/api/auth/login/"))
        "/api/auth/token/obtain/" (backend "/api/auth/token/obtain/")
        = .fail (some ("Not found: " ++ "/api/auth/token/obtain/")) := by
      rw [hb3]; exact loginStep_404 creds _ _ r3 hs3
    simp only [login, loginEndpoints, runAuth, k1, k2, k3]
    rfl
  · intro m h
    exact runAuth_err_msg (loginStep creds) backend "Login failed"
      loginEndpoints none st m h

/-- C5 witness: the all-404 backend. -/
theorem login_exhaustion_error_message_witness :
    (login creds0 bAll404 anon).result
      = .threw "Not found: /api/auth/token/obtain/"
    ∧ "Not found: /api/auth/token/obtain/"
      = (finalErr (loginStep creds0) bAll404 loginEndpoints none).getD
          "Login failed" := by
  have h := login_exhaustion_error_message creds0 bAll404 anon
  have h1 := h.1 (by intro e _; exact ⟨⟨404, .json {}⟩, rfl, rfl⟩)
  exact ⟨h1, h.2 _ h1⟩

/-! ### Claim C6 -/

/-- C6: on a successful JSON response, `login` extracts the token by trying
`access`, then `token`, then `auth_token` (first present wins); if all
three are absent the committed token is absent and the operation still
completes successfully. -/
theorem login_token_field_precedence
    (creds : Creds) (backend : String → FetchOutcome) (st : SessionState)
    (r : Response) (j : Body)
    (h2 : resOk r = true) (h3 : r.body = .json j) :
    (∀ le e t u, loginStep creds le e (.ok r) = .success t u →
      t = (match j.access with
           | some a => some a
           | none =>
             match j.token with
             | some tk => some tk
             | none => j.auth_token))
    ∧ (backend "/api/auth/token/" = .ok r →
      (login creds backend st).result = .returned
      ∧ (login creds backend st).state.token
          = (match j.access with
             | some a => some a
             | none =>
               match j.token with
               | some tk => some tk
               | none => j.auth_token)
      ∧ (j.access = none → j.token = none → j.auth_token = none →
          (login creds backend st).state.token = none)) := by
  constructor
  · intro le e t u hs
    simp [loginStep, h2, h3] at hs
    exact hs.1.symm
  · intro h1
    cases hstep : loginStep creds none "/api/auth/token/"
        (backend "/api/auth/token/") with
    | fail le =>
      rw [h1] at hstep
      simp [loginStep, h2, h3] at hstep
    | success t u =>
      have hval := hstep
      rw [h1] at hval
      simp [loginStep, h2, h3] at hval
      have hrun : (login creds backend st).result = .returned
          ∧ (login creds backend st).state.token = t := by
        simp [login, loginEndpoints, runAuth, hstep]
      refine ⟨hrun.1, ?_, ?_⟩
      · rw [hrun.2]
        exact hval.1.symm
      · intro ha ht hat
        rw [hrun.2, ← hval.1]
        simp [ha, ht, hat]

/-- C6 witness: a success response with none of the three token fields. -/
theorem login_token_field_precedence_witness :
    (login creds0 bEmptyOk anon).result = .returned
    ∧ (login creds0 bEmptyOk anon).state.token = none := by
  have h := (login_token_field_precedence creds0 bEmptyOk anon
    ⟨200, .json {}⟩ {} rfl rfl).2 rfl
  exact ⟨h.1, h.2.2 rfl rfl rfl⟩

/-! ### Claim C7 -/

/-- C7: when a successful response body has neither a `user` nor a
`username` field, the committed user record is the synthesized
`usernameOnly` record built from the submitted username. -/
theorem login_synthesizes_user_from_creds
    (creds : Creds) (backend : String → FetchOutcome) (st : SessionState)
    (r : Response) (j : Body)
    (h1 : backend "/api/auth/token/" = .ok r)
    (h2 : resOk r = true) (h3 : r.body = .json j)
    (h4 : j.user = none) (h5 : j.username = none) :
    (login creds backend st).result = .returned
    ∧ (login creds backend st).state.user
        = some (.usernameOnly creds.username) := by
  cases hstep : loginStep creds none "/api/auth/token/"
      (backend "/api/auth/token/") with
  | fail le =>
    rw [h1] at hstep
    simp [loginStep, h2, h3] at hstep
  | success t u =>
    have hval := hstep
    rw [h1] at hval
    simp [loginStep, h2, h3, h4, h5, truthy] at hval
    have hrun : (login creds backend st).result = .returned
        ∧ (login creds backend st).state.user = some u := by
      simp [login, loginEndpoints, runAuth, hstep]
    refine ⟨hrun.1, ?_⟩
    rw [hrun.2, ← hval.2]

/-- C7 witness: a concrete success response with an empty body. -/
theorem login_synthesizes_user_from_creds_witness :
    (login creds0 bEmptyOk anon).state.user
      = some (.usernameOnly "alice") :=
  (login_synthesizes_user_from_creds creds0 bEmptyOk anon
    ⟨200, .json {}⟩ {} rfl rfl rfl rfl rfl).2

/-! ### Claim C8 -/

/-- C8 counterexample: a successful login committing the empty-string token
(from `access : ""`) is not reproduced by persisting and re-reading: the
truthiness guard of the persistence effect removes the `auth_token` entry,
so the reloaded session has no token. -/
theorem empty_token_not_reproduced_after_reload :
    (login creds0 bEmptyTok anon).result = .returned
    ∧ (login creds0 bEmptyTok anon).state.token = some ""
    ∧ initState myDec (persist myEnc (login creds0 bEmptyTok anon).state)
        ≠ (login creds0 bEmptyTok anon).state := by
  decide

/-- C8 (amended): for every session state committed by a successful
`login` whose token is not the empty string, writing it to the two storage
slots and re-reading at initialization reproduces the same token and user
record (given that user-record serialization round-trips and never yields
the empty string, as `JSON.stringify` of an object does not). -/
theorem login_state_persist_roundtrip
    (encode : UserRec → String) (decode : String → Option UserRec)
    (hrt : ∀ u, decode (encode u) = some u)
    (hne : ∀ u, encode u ≠ "")
    (creds : Creds) (backend : String → FetchOutcome) (st : SessionState)
    (hok : (login creds backend st).result = .returned)
    (htok : (login creds backend st).state.token ≠ some "") :
    initState decode (persist encode (login creds backend st).state)
      = (login creds backend st).state := by
  have husr : (login creds backend st).state.user.isSome :=
    runAuth_returned_user_isSome (loginStep creds) backend "Login failed"
      loginEndpoints none st hok
  generalize hS : (login creds backend st).state = S at husr htok ⊢
  obtain ⟨tok, usr⟩ := S
  obtain ⟨u, hu⟩ := Option.isSome_iff_exists.mp husr
  simp only at hu
  subst hu
  cases tok with
  | none => simp [initState, initToken, initUser, persist, hne u, hrt u]
  | some t =>
    have ht : t ≠ "" := fun hh => htok (by rw [hh])
    simp [initState, initToken, initUser, persist, ht, hne u, hrt u]

/-- C8 witness: the amended round-trip at a concrete successful login with
a nonempty token, using the concrete serializer pair. -/
theorem login_state_persist_roundtrip_witness :
    initState myDec (persist myEnc (login creds0 bAbc anon).state)
      = (login creds0 bAbc anon).state :=
  login_state_persist_roundtrip myEnc myDec myDec_myEnc myEnc_ne_empty
    creds0 bAbc anon (by decide) (by decide)

/-! ### Claim C9 -/

/-- C9: initialization is total and tolerant: empty storage yields the
anonymous session, and a throwing read or an undecodable serialized user
record is treated as no value. -/
theorem init_never_fails
    (decode : String → Option UserRec) (st : Storage) :
    initState decode emptyStorage = ⟨none, none⟩
    ∧ (st.tokenSlot = .thrown → (initState decode st).token = none)
    ∧ (st.userSlot = .thrown → (initState decode st).user = none)
    ∧ (∀ raw, st.userSlot = .ok (some raw) → decode raw = none →
        (initState decode st).user = none) := by
  refine ⟨rfl, ?_, ?_, ?_⟩
  · intro h
    simp [initState, initToken, h]
  · intro h
    simp [initState, initUser, h]
  · intro raw hslot hdec
    rcases eq_or_ne raw "" with h | h <;>
      simp [initState, initUser, hslot, h, hdec]

/-- C9 witness: concrete storage contents for each tolerated failure. -/
theorem init_never_fails_witness :
    initState myDec emptyStorage = ⟨none, none⟩
    ∧ (initState myDec ⟨.thrown, .thrown⟩).token = none
    ∧ (initState myDec ⟨.thrown, .thrown⟩).user = none
    ∧ (initState myDec ⟨.ok none, .ok (some "x")⟩).user = none :=
  ⟨(init_never_fails myDec emptyStorage).1,
   (init_never_fails myDec ⟨.thrown, .thrown⟩).2.1 rfl,
   (init_never_fails myDec ⟨.thrown, .thrown⟩).2.2.1 rfl,
   (init_never_fails myDec ⟨.ok none, .ok (some "x")⟩).2.2.2 "x" rfl rfl⟩

end FanClub
